import Mathlib

/-!
Verification of the result-caching and request-deduplication layer of the
voyagr-api backend: the expiring key-value store, the cache-key derivation
functions, the fetch-or-populate coordinator (`getOrSet`), the provider
adapters (`searchRestaurants`, `searchAttractions`, `searchHotels`,
`searchFlights`) and the location-code normalizer (`normalizeToIATACode`).

The definitions are a shallow embedding of `src/utils/cache.ts` (shipped as
`unnamed/part_001`) and `src/services/serpApiService.ts`.  JavaScript strings
are Lean `String`s, JavaScript numbers used as counts are `Nat`, a value that
may be `undefined` is a `JSVal`, and a function that may `throw` returns
`Except`.  Time is an explicit `Nat` parameter (milliseconds are irrelevant;
only the ordering of instants matters).
-/

-- ============================================================================
-- JS values and the expiring key-value store
-- ============================================================================

/-- A JavaScript value of underlying type `V` that may be `undefined`. -/
inductive JSVal (V : Type) where
  | undef : JSVal V
  | val : V → JSVal V
deriving DecidableEq, Repr

/-- Modelled from the spec: a node-cache entry (the store itself is the
`node-cache` dependency, not repository code) holds a value and an absolute
expiry timestamp; per the spec an entry is valid iff current time < expiry. -/
structure CacheEntry (V : Type) where
  value : JSVal V
  expiry : Nat
deriving DecidableEq, Repr

/-- Modelled from the spec: the store maps opaque string keys to entries. -/
abbrev Store (V : Type) : Type := List (String × CacheEntry V)

/-- Association-list lookup of a key in the store. -/
def cacheLookup {V : Type} : Store V → String → Option (CacheEntry V)
  | [], _ => none
  | (k2, e) :: rest, k => if k2 = k then some e else cacheLookup rest k

/-- Modelled from the spec: `get(key)` returns the value of a live
(non-expired) entry; an absent or expired entry reads as `undefined`.
A stored `undefined` value also reads back as `undefined`. -/
def cacheGet {V : Type} (st : Store V) (k : String) (now : Nat) : JSVal V :=
  match cacheLookup st k with
  | none => JSVal.undef
  | some e => if now < e.expiry then e.value else JSVal.undef

/-- Remove any entry for a key (helper for overwriting `set`). -/
def removeKey {V : Type} : Store V → String → Store V
  | [], _ => []
  | (k2, e) :: rest, k => if k2 = k then removeKey rest k else (k2, e) :: removeKey rest k

/-- Modelled from the spec: `set(key, value, ttl)` inserts or overwrites the
entry for the key with expiry = now + ttl; it always succeeds. -/
def cacheSet {V : Type} (st : Store V) (k : String) (v : JSVal V) (ttl now : Nat) : Store V :=
  (k, ⟨v, now + ttl⟩) :: removeKey st k

-- ============================================================================
-- Fetch-or-populate coordinator: getOrSet (src/utils/cache.ts lines 154-180)
-- ============================================================================

/-- The TTL actually applied by `getOrSet`: the JavaScript guard `if (ttl)`
falls back to the cache instance's default TTL when the override is absent or
falsy (zero). -/
def effectiveTTL (ttl : Option Nat) (stdTTL : Nat) : Nat :=
  match ttl with
  | some t => if t = 0 then stdTTL else t
  | none => stdTTL

instance {E V : Type} [DecidableEq E] [DecidableEq V] : DecidableEq (Except E V)
  | Except.error x, Except.error y =>
    if h : x = y then Decidable.isTrue (by rw [h]) else Decidable.isFalse (by simp [h])
  | Except.error _, Except.ok _ => Decidable.isFalse (by simp)
  | Except.ok _, Except.error _ => Decidable.isFalse (by simp)
  | Except.ok x, Except.ok y =>
    if h : x = y then Decidable.isTrue (by rw [h]) else Decidable.isFalse (by simp [h])

/-- Outcome of one `getOrSet` call: the returned (or thrown) value, the store
afterwards, and how many times the supplier was invoked during the call. -/
structure GetOrSetResult (E V : Type) where
  result : Except E (JSVal V)
  store : Store V
  supplierCalls : Nat
deriving DecidableEq, Repr

/-- Embedding of `getOrSet(cache, key, fetchFn, ttl?)`: try `cache.get(key)`;
on `cached !== undefined` return the cached value without invoking the
supplier; otherwise invoke the supplier, propagate its failure without
touching the store, or store its result (with the ttl override or the
default) and return it.  The supplier's one execution is represented by its
outcome `fetchFn`. -/
def getOrSet {E V : Type} (st : Store V) (key : String) (fetchFn : Except E (JSVal V))
    (ttl : Option Nat) (stdTTL : Nat) (now : Nat) : GetOrSetResult E V :=
  match cacheGet st key now with
  | JSVal.val v => ⟨Except.ok (JSVal.val v), st, 0⟩
  | JSVal.undef =>
    match fetchFn with
    | Except.error e => ⟨Except.error e, st, 1⟩
    | Except.ok data => ⟨Except.ok data, cacheSet st key data (effectiveTTL ttl stdTTL) now, 1⟩

/-- Default TTL of the SERP cache instance (`stdTTL: 900`). -/
def serpCacheStdTTL : Nat := 900

-- ============================================================================
-- Cache-key derivation (src/utils/cache.ts lines 40-140)
-- ============================================================================

/-- `String.prototype.toLowerCase()` (character-wise lower-casing; ASCII is
all the repository's inputs exercise). -/
def jsToLower (s : String) : String := ⟨s.data.map Char.toLower⟩

/-- `String.prototype.toUpperCase()`. -/
def jsToUpper (s : String) : String := ⟨s.data.map Char.toUpper⟩

/-- `String.prototype.trim()`: strip leading and trailing whitespace. -/
def jsTrim (s : String) : String :=
  ⟨((s.data.dropWhile Char.isWhitespace).reverse.dropWhile Char.isWhitespace).reverse⟩

/-- `String.prototype.startsWith(pre)`. -/
def jsStartsWith (s pre : String) : Bool := pre.data.isPrefixOf s.data

/-- Does `sub` occur as a contiguous run inside `s`? -/
def isInfixList (sub s : List Char) : Bool :=
  match s with
  | [] => sub.isEmpty
  | _ :: rest => sub.isPrefixOf s || isInfixList sub rest

/-- `String.prototype.includes(sub)`. -/
def jsIncludes (s sub : String) : Bool := isInfixList sub.data s.data

/-- Lexicographic comparison of character lists, as JavaScript compares
strings (`<` on code units). -/
def charListLt : List Char → List Char → Bool
  | [], [] => false
  | [], _ :: _ => true
  | _ :: _, [] => false
  | a :: as, b :: bs => if a < b then true else if b < a then false else charListLt as bs

/-- The ordering used by the default JavaScript `Array.prototype.sort()` on
strings: `a ≤ b` iff `b` is not strictly less than `a`. -/
abbrev jsStrLeP (a b : String) : Prop := charListLt b.data a.data = false

/-- `Array.prototype.join(sep)`: concatenate the parts with the separator. -/
def joinParts (sep : String) : List String → String
  | [] => ""
  | [p] => p
  | p :: q :: rest => p ++ sep ++ joinParts sep (q :: rest)

/-- Options of `generateRestaurantCacheKey` / `searchRestaurants`. -/
structure RestaurantSearchOptions where
  cuisine : Option String
  priceLevel : Option String
  limit : Option Nat
deriving DecidableEq, Repr

/-- Options of `generateAttractionCacheKey` / `searchAttractions`. -/
structure AttractionSearchOptions where
  interests : Option (List String)
  limit : Option Nat
deriving DecidableEq, Repr

/-- Options of `generateHotelCacheKey` / `searchHotels`. -/
structure HotelSearchOptions where
  checkIn : Option String
  checkOut : Option String
  budget : Option Nat
  limit : Option Nat
deriving DecidableEq, Repr

/-- Options of `generateFlightCacheKey` / `searchFlights`. -/
structure FlightSearchOptions where
  adults : Option Nat
  children : Option Nat
  cabinClass : Option String
  limit : Option Nat
deriving DecidableEq, Repr

/-- The parts contributed by a JS `if (<optional string>)` push: present only
when the option is supplied and truthy (a non-empty string). -/
def strPart (o : Option String) (render : String → String) : List String :=
  match o with
  | some s => if s = "" then [] else [render s]
  | none => []

/-- The parts contributed by a JS `if (<optional number>)` push: present only
when the option is supplied and truthy (non-zero). -/
def natPart (o : Option Nat) (render : Nat → String) : List String :=
  match o with
  | some n => if n = 0 then [] else [render n]
  | none => []

/-- Embedding of `generateRestaurantCacheKey(destination, options?)`. -/
def generateRestaurantCacheKey (destination : String)
    (options : Option RestaurantSearchOptions) : String :=
  let parts := ["restaurants", jsToLower destination] ++
    (match options with
     | none => []
     | some o =>
       strPart o.cuisine (fun c => jsToLower c) ++
       strPart o.priceLevel (fun p => p) ++
       natPart o.limit (fun n => "limit:" ++ Nat.repr n))
  joinParts ":" parts

/-- Embedding of `generateAttractionCacheKey(destination, options?)`; the
interests are sorted (JS `Array.prototype.sort()`, lexicographic string
order), hyphen-joined, then lower-cased. -/
def generateAttractionCacheKey (destination : String)
    (options : Option AttractionSearchOptions) : String :=
  let parts := ["attractions", jsToLower destination] ++
    (match options with
     | none => []
     | some o =>
       (match o.interests with
        | some l => if 0 < l.length
            then [jsToLower (joinParts "-" (List.insertionSort jsStrLeP l))]
            else []
        | none => []) ++
       natPart o.limit (fun n => "limit:" ++ Nat.repr n))
  joinParts ":" parts

/-- Embedding of `generateHotelCacheKey(destination, options?)`. -/
def generateHotelCacheKey (destination : String)
    (options : Option HotelSearchOptions) : String :=
  let parts := ["hotels", jsToLower destination] ++
    (match options with
     | none => []
     | some o =>
       strPart o.checkIn (fun d => "checkin:" ++ d) ++
       strPart o.checkOut (fun d => "checkout:" ++ d) ++
       natPart o.budget (fun n => "budget:" ++ Nat.repr n) ++
       natPart o.limit (fun n => "limit:" ++ Nat.repr n))
  joinParts ":" parts

/-- Embedding of `generateFlightCacheKey(origin, destination, departureDate,
returnDate?, options?)`. -/
def generateFlightCacheKey (origin destination departureDate : String)
    (returnDate : Option String) (options : Option FlightSearchOptions) : String :=
  let parts := ["flights", jsToLower origin, jsToLower destination, departureDate] ++
    strPart returnDate (fun r => r) ++
    (match options with
     | none => []
     | some o =>
       natPart o.adults (fun n => "adults:" ++ Nat.repr n) ++
       natPart o.children (fun n => "children:" ++ Nat.repr n) ++
       strPart o.cabinClass (fun c => jsToLower c) ++
       natPart o.limit (fun n => "limit:" ++ Nat.repr n))
  joinParts ":" parts





-- ============================================================================
-- Location-code normalizer (src/services/serpApiService.ts lines 113-285)
-- ============================================================================

/-- The static city/region to IATA airport code mapping, in source order
(object-literal insertion order, which drives the partial-match scan). -/
def CITY_TO_IATA : List (String × String) := [
  ("new york", "JFK"), ("new york city", "JFK"), ("nyc", "JFK"),
  ("manhattan", "JFK"), ("brooklyn", "JFK"), ("queens", "JFK"),
  ("bronx", "JFK"), ("los angeles", "LAX"), ("la", "LAX"),
  ("hollywood", "LAX"), ("santa monica", "LAX"), ("beverly hills", "LAX"),
  ("chicago", "ORD"), ("river forest", "ORD"), ("evanston", "ORD"),
  ("oak park", "ORD"), ("naperville", "ORD"), ("san francisco", "SFO"),
  ("sf", "SFO"), ("oakland", "OAK"), ("san jose", "SJC"),
  ("miami", "MIA"), ("miami beach", "MIA"), ("fort lauderdale", "FLL"),
  ("boston", "BOS"), ("cambridge", "BOS"), ("somerville", "BOS"),
  ("seattle", "SEA"), ("bellevue", "SEA"), ("tacoma", "SEA"),
  ("washington", "DCA"), ("dc", "DCA"), ("washington dc", "DCA"),
  ("arlington", "DCA"), ("atlanta", "ATL"), ("dallas", "DFW"),
  ("houston", "IAH"), ("phoenix", "PHX"), ("philadelphia", "PHL"),
  ("las vegas", "LAS"), ("orlando", "MCO"), ("denver", "DEN"),
  ("portland", "PDX"), ("austin", "AUS"), ("nashville", "BNA"),
  ("new orleans", "MSY"), ("toronto", "YYZ"), ("mississauga", "YYZ"),
  ("scarborough", "YYZ"), ("vancouver", "YVR"), ("burnaby", "YVR"),
  ("richmond", "YVR"), ("montreal", "YUL"), ("calgary", "YYC"),
  ("ottawa", "YOW"), ("edmonton", "YEG"), ("mexico city", "MEX"),
  ("cancun", "CUN"), ("guadalajara", "GDL"), ("monterrey", "MTY"),
  ("london", "LHR"), ("westminster", "LHR"), ("city of london", "LHR"),
  ("heathrow", "LHR"), ("manchester", "MAN"), ("edinburgh", "EDI"),
  ("glasgow", "GLA"), ("dublin", "DUB"), ("paris", "CDG"),
  ("marseille", "MRS"), ("lyon", "LYS"), ("nice", "NCE"),
  ("toulouse", "TLS"), ("berlin", "BER"), ("munich", "MUC"),
  ("frankfurt", "FRA"), ("hamburg", "HAM"), ("cologne", "CGN"),
  ("dusseldorf", "DUS"), ("madrid", "MAD"), ("barcelona", "BCN"),
  ("seville", "SVQ"), ("valencia", "VLC"), ("malaga", "AGP"),
  ("rome", "FCO"), ("milan", "MXP"), ("venice", "VCE"),
  ("florence", "FLR"), ("naples", "NAP"), ("bologna", "BLQ"),
  ("amsterdam", "AMS"), ("rotterdam", "RTM"), ("brussels", "BRU"),
  ("zurich", "ZRH"), ("geneva", "GVA"), ("vienna", "VIE"),
  ("copenhagen", "CPH"), ("stockholm", "ARN"), ("oslo", "OSL"),
  ("helsinki", "HEL"), ("athens", "ATH"), ("lisbon", "LIS"),
  ("porto", "OPO"), ("prague", "PRG"), ("budapest", "BUD"),
  ("warsaw", "WAW"), ("krakow", "KRK"), ("istanbul", "IST"),
  ("tokyo", "NRT"), ("osaka", "KIX"), ("kyoto", "KIX"),
  ("nagoya", "NGO"), ("fukuoka", "FUK"), ("sapporo", "CTS"),
  ("hiroshima", "HIJ"), ("beijing", "PEK"), ("shanghai", "PVG"),
  ("guangzhou", "CAN"), ("shenzhen", "SZX"), ("chengdu", "CTU"),
  ("hong kong", "HKG"), ("singapore", "SIN"), ("bangkok", "BKK"),
  ("kuala lumpur", "KUL"), ("manila", "MNL"), ("jakarta", "CGK"),
  ("ho chi minh", "SGN"), ("saigon", "SGN"), ("hanoi", "HAN"),
  ("phuket", "HKT"), ("bali", "DPS"), ("denpasar", "DPS"),
  ("chiang mai", "CNX"), ("krabi", "KBV"), ("pattaya", "UTP"),
  ("koh samui", "USM"), ("hat yai", "HDY"), ("delhi", "DEL"),
  ("new delhi", "DEL"), ("mumbai", "BOM"), ("bombay", "BOM"),
  ("bangalore", "BLR"), ("chennai", "MAA"), ("hyderabad", "HYD"),
  ("kolkata", "CCU"), ("calcutta", "CCU"), ("dubai", "DXB"),
  ("abu dhabi", "AUH"), ("doha", "DOH"), ("riyadh", "RUH"),
  ("jeddah", "JED"), ("tel aviv", "TLV"), ("jerusalem", "TLV"),
  ("amman", "AMM"), ("beirut", "BEY"), ("seoul", "ICN"),
  ("taipei", "TPE"), ("kaohsiung", "KHH"), ("sydney", "SYD"),
  ("melbourne", "MEL"), ("brisbane", "BNE"), ("perth", "PER"),
  ("adelaide", "ADL"), ("auckland", "AKL"), ("wellington", "WLG"),
  ("christchurch", "CHC"), ("sao paulo", "GRU"), ("rio de janeiro", "GIG"),
  ("rio", "GIG"), ("brasilia", "BSB"), ("buenos aires", "EZE"),
  ("santiago", "SCL"), ("lima", "LIM"), ("bogota", "BOG"),
  ("medellin", "MDE"), ("cartagena", "CTG"), ("quito", "UIO"),
  ("guayaquil", "GYE"), ("johannesburg", "JNB"), ("cape town", "CPT"),
  ("durban", "DUR"), ("cairo", "CAI"), ("nairobi", "NBO"),
  ("lagos", "LOS"), ("accra", "ACC"), ("casablanca", "CMN"),
  ("marrakech", "RAK"), ("jfk", "JFK"), ("lax", "LAX"),
  ("ord", "ORD"), ("lhr", "LHR"), ("cdg", "CDG"),
  ("nrt", "NRT"), ("hnd", "HND"), ("dxb", "DXB"),
  ("sin", "SIN"), ("icn", "ICN"), ("hkg", "HKG")]

/-- JavaScript object property lookup in `CITY_TO_IATA` (keys are unique, so
association-list lookup agrees with object semantics). -/
def tableLookup : List (String × String) → String → Option String
  | [], _ => none
  | (city, code) :: rest, s => if city = s then some code else tableLookup rest s

/-- The partial-match scan over `Object.entries(CITY_TO_IATA)`: the first
entry (in insertion order) whose city name contains, or is contained in, the
normalized input. -/
def partialMatch : List (String × String) → String → Option String
  | [], _ => none
  | (city, code) :: rest, normalized =>
    if jsIncludes normalized city || jsIncludes city normalized then some code
    else partialMatch rest normalized

/-- The regular expression `/^[A-Z]\x7b3\x7d$/i`: exactly three ASCII letters. -/
def isIataPattern (s : String) : Bool :=
  s.length = 3 && s.data.all (fun c => ('A' <= c && c <= 'Z') || ('a' <= c && c <= 'z'))

/-- Embedding of `normalizeToIATACode(location)`.  The network fallback
(`getWikidataFreebaseId`, whose own failures are caught and surface as
`null`) is abstracted as a `fallback` environment returning `some` Freebase
id or `none`; everything else is the source's decision chain: empty input,
3-letter code, opaque `/m/` id, exact table hit, partial table match,
fallback, and finally the trimmed input returned unchanged. -/
def normalizeToIATACode (fallback : String → Option String) (location : String) : String :=
  if location = "" then ""
  else
    let normalized := jsTrim (jsToLower location)
    if isIataPattern (jsTrim location) then jsToUpper (jsTrim location)
    else if jsStartsWith (jsTrim location) "/m/" then jsTrim location
    else
      match tableLookup CITY_TO_IATA normalized with
      | some iataCode => iataCode
      | none =>
        match partialMatch CITY_TO_IATA normalized with
        | some code => code
        | none =>
          match fallback location with
          | some freebaseId => freebaseId
          | none => jsTrim location

-- ============================================================================
-- Provider adapters (src/services/serpApiService.ts)
-- ============================================================================

/-- `HTTP_STATUS.BAD_REQUEST` from `src/config/constants.ts`. -/
def HTTP_STATUS_BAD_REQUEST : Nat := 400

/-- `HTTP_STATUS.INTERNAL_SERVER_ERROR` from `src/config/constants.ts`. -/
def HTTP_STATUS_INTERNAL_SERVER_ERROR : Nat := 500

/-- `HTTP_STATUS.SERVICE_UNAVAILABLE` from `src/config/constants.ts`. -/
def HTTP_STATUS_SERVICE_UNAVAILABLE : Nat := 503

/-- The `AppError` of `src/middleware/errorHandler.ts`: a message and an HTTP
status code. -/
structure AppError where
  message : String
  statusCode : Nat
deriving DecidableEq, Repr

/-- An error escaping a supplier closure: either an `AppError` thrown inside
it (not an axios error), or an axios failure of the upstream HTTP call. -/
inductive SupplierErr where
  | app : AppError → SupplierErr
  | axiosResp : Nat → SupplierErr
  | axiosNoResp : SupplierErr
deriving DecidableEq, Repr

/-- Embedding of `handleSerpApiError(error, context)` (lines 302-334): axios
errors with a response map to "SERP API returned error"; axios errors without
a response map to "SERP API did not respond" (both with the `AppError`
default status 500, since `HTTP_STATUS` defines no `BAD_GATEWAY` or
`GATEWAY_TIMEOUT` key); anything else — including the configuration
`AppError` — becomes the generic `Failed to <context>` 500 error. -/
def handleSerpApiError (error : SupplierErr) (context : String) : AppError :=
  match error with
  | SupplierErr.axiosResp status =>
    ⟨"SERP API returned error: " ++ Nat.repr status, HTTP_STATUS_INTERNAL_SERVER_ERROR⟩
  | SupplierErr.axiosNoResp =>
    ⟨"SERP API did not respond", HTTP_STATUS_INTERNAL_SERVER_ERROR⟩
  | SupplierErr.app _ =>
    ⟨"Failed to " ++ context, HTTP_STATUS_INTERNAL_SERVER_ERROR⟩

/-- Behaviour of the external SERP HTTP endpoint for one request, as the
adapter observes it: a 2xx response (already parsed, normalized and truncated
to the limit — the claims under verification do not inspect result shapes),
a non-2xx response, or no response at all. -/
inductive UpstreamOutcome (V : Type) where
  | ok : V → UpstreamOutcome V
  | httpError : Nat → UpstreamOutcome V
  | noResponse : UpstreamOutcome V
deriving DecidableEq, Repr

/-- The `AppError` thrown by `makeSerpApiRequest` when `SERPAPI_API_KEY` is
absent. -/
def serpNotConfiguredError : AppError :=
  ⟨"SERP API is not configured. Please set SERPAPI_API_KEY environment variable.",
   HTTP_STATUS_SERVICE_UNAVAILABLE⟩

/-- One execution of a supplier closure: its outcome, whether it reached the
upstream HTTP call, and how many times it invoked `normalizeToIATACode`. -/
structure SupplierSpec (V : Type) where
  outcome : Except SupplierErr (JSVal V)
  network : Bool
  normalizeCalls : Nat
deriving DecidableEq, Repr

/-- Embedding of `makeSerpApiRequest(params)` (lines 339-360): if the
credential is absent, throw the 503 configuration `AppError` without touching
the network; otherwise perform the HTTP call and propagate its outcome. -/
def makeSerpApiRequest {V : Type} (configured : Bool) (upstream : UpstreamOutcome V) :
    SupplierSpec V :=
  if configured then
    match upstream with
    | UpstreamOutcome.ok results => ⟨Except.ok (JSVal.val results), true, 0⟩
    | UpstreamOutcome.httpError s => ⟨Except.error (SupplierErr.axiosResp s), true, 0⟩
    | UpstreamOutcome.noResponse => ⟨Except.error SupplierErr.axiosNoResp, true, 0⟩
  else ⟨Except.error (SupplierErr.app serpNotConfiguredError), false, 0⟩

/-- The flight supplier closure (lines 607-694): resolve origin and
destination through `normalizeToIATACode` (two invocations), then make the
SERP request with the resolved codes. -/
def flightSupplier {V : Type} (configured : Bool) (fallback : String → Option String)
    (upstream : String → String → UpstreamOutcome V) (origin destination : String) :
    SupplierSpec V :=
  let originCode := normalizeToIATACode fallback origin
  let destinationCode := normalizeToIATACode fallback destination
  let base := makeSerpApiRequest configured (upstream originCode destinationCode)
  ⟨base.outcome, base.network, 2⟩

/-- The observable effects of one adapter call: the returned (or thrown)
value, the store afterwards, the derived cache key (`none` when derivation
was never reached), whether the cache was consulted, whether the upstream
HTTP call was attempted, and how many times the supplier and
`normalizeToIATACode` ran. -/
structure AdapterRun (V : Type) where
  result : Except AppError (JSVal V)
  store : Store V
  cacheKey : Option String
  cacheConsulted : Bool
  networkAttempted : Bool
  supplierCalls : Nat
  normalizeCalls : Nat
deriving DecidableEq, Repr

/-- An adapter call rejected by the parameter validation at the top of the
function: the 400 `AppError` is thrown before any cache-key derivation, cache
access or network work. -/
def validationFailure {V : Type} (msg : String) (st : Store V) : AdapterRun V :=
  ⟨Except.error ⟨msg, HTTP_STATUS_BAD_REQUEST⟩, st, none, false, false, 0, 0⟩

/-- The shared `try { ... getOrSet(serpCache, cacheKey, supplier, ttl?) }
catch { handleSerpApiError(error, context) }` body of every adapter: run the
coordinator against the store and wrap any escaping error. -/
def runCached {V : Type} (st : Store V) (now : Nat) (key : String) (sup : SupplierSpec V)
    (ttl : Option Nat) (context : String) : AdapterRun V :=
  let r := getOrSet st key sup.outcome ttl serpCacheStdTTL now
  ⟨(match r.result with
    | Except.ok v => Except.ok v
    | Except.error e => Except.error (handleSerpApiError e context)),
   r.store, some key, true,
   (if r.supplierCalls = 0 then false else sup.network),
   r.supplierCalls,
   (if r.supplierCalls = 0 then 0 else sup.normalizeCalls)⟩

/-- Embedding of `searchRestaurants(destination, options)` (lines 372-434). -/
def searchRestaurants {V : Type} (configured : Bool) (upstream : UpstreamOutcome V)
    (st : Store V) (now : Nat) (destination : String)
    (options : RestaurantSearchOptions) : AdapterRun V :=
  if destination = "" ∨ jsTrim destination = "" then
    validationFailure "Destination is required" st
  else
    runCached st now (generateRestaurantCacheKey destination (some options))
      (makeSerpApiRequest configured upstream) none "search restaurants"

/-- Embedding of `searchAttractions(destination, options)` (lines 442-501). -/
def searchAttractions {V : Type} (configured : Bool) (upstream : UpstreamOutcome V)
    (st : Store V) (now : Nat) (destination : String)
    (options : AttractionSearchOptions) : AdapterRun V :=
  if destination = "" ∨ jsTrim destination = "" then
    validationFailure "Destination is required" st
  else
    runCached st now (generateAttractionCacheKey destination (some options))
      (makeSerpApiRequest configured upstream) none "search attractions"

/-- Embedding of `searchHotels(destination, options)` (lines 509-565). -/
def searchHotels {V : Type} (configured : Bool) (upstream : UpstreamOutcome V)
    (st : Store V) (now : Nat) (destination : String)
    (options : HotelSearchOptions) : AdapterRun V :=
  if destination = "" ∨ jsTrim destination = "" then
    validationFailure "Destination is required" st
  else
    runCached st now (generateHotelCacheKey destination (some options))
      (makeSerpApiRequest configured upstream) none "search hotels"

/-- Embedding of `searchFlights(origin, destination, departureDate,
returnDate?, options)` (lines 576-698): validate the three required
parameters, derive the cache key from the raw origin/destination strings,
then run the coordinator with a 300-second ttl override and the flight
supplier (which is where location-code resolution happens). -/
def searchFlights {V : Type} (configured : Bool) (fallback : String → Option String)
    (upstream : String → String → UpstreamOutcome V) (st : Store V) (now : Nat)
    (origin destination departureDate : String) (returnDate : Option String)
    (options : FlightSearchOptions) : AdapterRun V :=
  if origin = "" ∨ jsTrim origin = "" then
    validationFailure "Origin is required" st
  else if destination = "" ∨ jsTrim destination = "" then
    validationFailure "Destination is required" st
  else if departureDate = "" ∨ jsTrim departureDate = "" then
    validationFailure "Departure date is required" st
  else
    runCached st now
      (generateFlightCacheKey origin destination departureDate returnDate (some options))
      (flightSupplier configured fallback upstream origin destination)
      (some 300) "search flights"




-- ============================================================================
-- Supporting lemmas
-- ============================================================================

/-- Two strings with the same character data are equal. -/
theorem stringDataInj {a b : String} (h : a.data = b.data) : a = b := by
  cases a
  cases b
  simp_all

/-- The character data of a concatenation. -/
theorem string_data_append (s t : String) : (s ++ t).data = s.data ++ t.data := rfl

/-- String concatenation is left-cancellative. -/
theorem string_append_cancel_left {s a b : String} (h : s ++ a = s ++ b) : a = b := by
  apply stringDataInj
  have hd : s.data ++ a.data = s.data ++ b.data := by
    rw [← string_data_append, ← string_data_append, h]
  exact List.append_cancel_left hd

/-- The last component of a three-part join is determined by the join. -/
theorem joinParts_three_inj_last (sep a b c1 c2 : String)
    (h : joinParts sep [a, b, c1] = joinParts sep [a, b, c2]) : c1 = c2 := by
  simp only [joinParts] at h
  exact string_append_cancel_left (string_append_cancel_left h)

/-- `charListLt` is irreflexive. -/
theorem charListLt_irrefl : ∀ l : List Char, charListLt l l = false
  | [] => rfl
  | a :: as => by simp [charListLt, lt_irrefl a, charListLt_irrefl as]

/-- `charListLt` is transitive. -/
theorem charListLt_trans : ∀ (a b c : List Char),
    charListLt a b = true → charListLt b c = true → charListLt a c = true := by
  intro a
  induction a with
  | nil =>
    intro b c hab hbc
    cases b with
    | nil => simp [charListLt] at hab
    | cons y bs =>
      cases c with
      | nil => simp [charListLt] at hbc
      | cons z cs => simp [charListLt]
  | cons x as ih =>
    intro b c hab hbc
    cases b with
    | nil => simp [charListLt] at hab
    | cons y bs =>
      cases c with
      | nil => simp [charListLt] at hbc
      | cons z cs =>
        simp only [charListLt] at hab hbc ⊢
        by_cases hxy : x < y
        · by_cases hyz : y < z
          · simp [lt_trans hxy hyz]
          · by_cases hzy : z < y
            · rw [if_neg hyz, if_pos hzy] at hbc
              simp at hbc
            · have hyeq : y = z := le_antisymm (not_lt.mp hzy) (not_lt.mp hyz)
              subst hyeq
              simp [hxy]
        · by_cases hyx : y < x
          · rw [if_neg hxy, if_pos hyx] at hab
            simp at hab
          · have hxeq : x = y := le_antisymm (not_lt.mp hyx) (not_lt.mp hxy)
            subst hxeq
            rw [if_neg hxy, if_neg hyx] at hab
            by_cases hxz : x < z
            · simp [hxz]
            · by_cases hzx : z < x
              · rw [if_neg hxz, if_pos hzx] at hbc
                simp at hbc
              · have hxeq2 : x = z := le_antisymm (not_lt.mp hzx) (not_lt.mp hxz)
                subst hxeq2
                rw [if_neg hxz, if_neg hzx] at hbc
                rw [if_neg hxz, if_neg hzx]
                exact ih bs cs hab hbc

/-- If neither list is `charListLt`-below the other, they are equal. -/
theorem charListLt_conn : ∀ (a b : List Char),
    charListLt a b = false → charListLt b a = false → a = b := by
  intro a
  induction a with
  | nil =>
    intro b h1 _
    cases b with
    | nil => rfl
    | cons y bs => simp [charListLt] at h1
  | cons x as ih =>
    intro b h1 h2
    cases b with
    | nil => simp [charListLt] at h2
    | cons y bs =>
      simp only [charListLt] at h1 h2
      by_cases hxy : x < y
      · rw [if_pos hxy] at h1
        simp at h1
      · by_cases hyx : y < x
        · rw [if_pos hyx] at h2
          simp at h2
        · have hx : x = y := le_antisymm (not_lt.mp hyx) (not_lt.mp hxy)
          rw [if_neg hxy, if_neg hyx] at h1
          rw [if_neg hyx, if_neg hxy] at h2
          rw [hx, ih bs h1 h2]

/-- `charListLt` is asymmetric. -/
theorem charListLt_asymm {a b : List Char} (h : charListLt a b = true) :
    charListLt b a = false := by
  cases hba : charListLt b a with
  | false => rfl
  | true =>
    have := charListLt_trans a b a h hba
    rw [charListLt_irrefl] at this
    exact absurd this (by simp)

instance : IsTotal String jsStrLeP := by
  constructor
  intro a b
  cases h : charListLt b.data a.data with
  | false => exact Or.inl h
  | true => exact Or.inr (charListLt_asymm h)

instance : IsTrans String jsStrLeP := by
  constructor
  intro a b c h1 h2
  show charListLt c.data a.data = false
  cases h : charListLt c.data a.data with
  | false => rfl
  | true =>
    exfalso
    cases hab : charListLt a.data b.data with
    | true =>
      have hcb := charListLt_trans c.data a.data b.data h hab
      rw [h2] at hcb
      exact absurd hcb (by simp)
    | false =>
      have heq : a.data = b.data := charListLt_conn a.data b.data hab h1
      rw [heq, h2] at h
      exact absurd h (by simp)

instance : IsAntisymm String jsStrLeP := by
  constructor
  intro a b h1 h2
  exact stringDataInj (charListLt_conn a.data b.data h2 h1)

/-- Sorting with the JavaScript string order is a function of the multiset of
elements: permuting the input does not change the sorted output. -/
theorem insertionSort_eq_of_perm {xs ys : List String} (h : List.Perm xs ys) :
    List.insertionSort jsStrLeP xs = List.insertionSort jsStrLeP ys :=
  List.eq_of_perm_of_sorted
    ((List.perm_insertionSort jsStrLeP xs).trans
      (h.trans (List.perm_insertionSort jsStrLeP ys).symm))
    (List.sorted_insertionSort jsStrLeP xs) (List.sorted_insertionSort jsStrLeP ys)

/-- Reading back the key just written: live until `now + ttl`. -/
theorem cacheGet_cacheSet_same {V : Type} (st : Store V) (k : String) (v : JSVal V)
    (ttl now now2 : Nat) :
    cacheGet (cacheSet st k v ttl now) k now2 =
      if now2 < now + ttl then v else JSVal.undef := by
  simp [cacheGet, cacheSet, cacheLookup]

/-- A live cache hit short-circuits `getOrSet`. -/
theorem getOrSet_hit {E V : Type} (st : Store V) (k : String) (f : Except E (JSVal V))
    (ttl : Option Nat) (stdTTL now : Nat) (v : V) (h : cacheGet st k now = JSVal.val v) :
    getOrSet st k f ttl stdTTL now = ⟨Except.ok (JSVal.val v), st, 0⟩ := by
  simp [getOrSet, h]

/-- On a miss, a failing supplier propagates and the store is untouched. -/
theorem getOrSet_miss_error {E V : Type} (st : Store V) (k : String) (e : E)
    (ttl : Option Nat) (stdTTL now : Nat) (h : cacheGet st k now = JSVal.undef) :
    getOrSet st k (Except.error e : Except E (JSVal V)) ttl stdTTL now =
      ⟨Except.error e, st, 1⟩ := by
  simp [getOrSet, h]

/-- On a miss, a successful supplier's value is stored and returned. -/
theorem getOrSet_miss_ok {E V : Type} (st : Store V) (k : String) (data : JSVal V)
    (ttl : Option Nat) (stdTTL now : Nat) (h : cacheGet st k now = JSVal.undef) :
    getOrSet st k (Except.ok data : Except E (JSVal V)) ttl stdTTL now =
      ⟨Except.ok data, cacheSet st k data (effectiveTTL ttl stdTTL) now, 1⟩ := by
  simp [getOrSet, h]

/-- `runCached` on a live hit: cached value out, no supplier, no network. -/
theorem runCached_hit {V : Type} (st : Store V) (now : Nat) (key : String)
    (sup : SupplierSpec V) (ttl : Option Nat) (ctx : String) (v : V)
    (h : cacheGet st key now = JSVal.val v) :
    runCached st now key sup ttl ctx =
      ⟨Except.ok (JSVal.val v), st, some key, true, false, 0, 0⟩ := by
  simp [runCached, getOrSet_hit st key sup.outcome ttl serpCacheStdTTL now v h]

/-- `runCached` on a miss whose supplier fails: the translated error out,
store untouched, one supplier run. -/
theorem runCached_miss_error {V : Type} (st : Store V) (now : Nat) (key : String)
    (sup : SupplierSpec V) (ttl : Option Nat) (ctx : String) (e : SupplierErr)
    (h : cacheGet st key now = JSVal.undef) (he : sup.outcome = Except.error e) :
    runCached st now key sup ttl ctx =
      ⟨Except.error (handleSerpApiError e ctx), st, some key, true, sup.network, 1,
       sup.normalizeCalls⟩ := by
  simp [runCached, getOrSet, h, he]

/-- `runCached` on a miss whose supplier succeeds: value stored and
returned, one supplier run. -/
theorem runCached_miss_ok {V : Type} (st : Store V) (now : Nat) (key : String)
    (sup : SupplierSpec V) (ttl : Option Nat) (ctx : String) (data : JSVal V)
    (h : cacheGet st key now = JSVal.undef) (he : sup.outcome = Except.ok data) :
    runCached st now key sup ttl ctx =
      ⟨Except.ok data, cacheSet st key data (effectiveTTL ttl serpCacheStdTTL) now,
       some key, true, sup.network, 1, sup.normalizeCalls⟩ := by
  simp [runCached, getOrSet, h, he]

-- ============================================================================
-- Claims
-- ============================================================================

/-- C1: if the store holds a live (non-expired, non-undefined) entry for the
key, `getOrSet` returns the cached value without invoking the supplier; and
calling `getOrSet` twice with the same key — the first a miss populated by a
supplier returning `v1`, the second within the effective TTL window with a
supplier returning a possibly different `v2` — invokes a supplier exactly
once in total and the second call returns the first call's value `v1`. -/
theorem getOrSet_cache_hit_suppresses_supplier {E V : Type} :
    (∀ (st : Store V) (k : String) (f : Except E (JSVal V)) (ttl : Option Nat)
       (stdTTL now : Nat) (v : V),
       cacheGet st k now = JSVal.val v →
       getOrSet st k f ttl stdTTL now = ⟨Except.ok (JSVal.val v), st, 0⟩) ∧
    (∀ (st : Store V) (k : String) (v1 v2 : V) (ttl : Option Nat) (stdTTL now1 now2 : Nat),
       cacheGet st k now1 = JSVal.undef →
       now2 < now1 + effectiveTTL ttl stdTTL →
       (getOrSet st k (Except.ok (JSVal.val v1) : Except E (JSVal V))
           ttl stdTTL now1).supplierCalls = 1 ∧
       (getOrSet ((getOrSet st k (Except.ok (JSVal.val v1) : Except E (JSVal V))
           ttl stdTTL now1).store) k (Except.ok (JSVal.val v2) : Except E (JSVal V))
           ttl stdTTL now2).supplierCalls = 0 ∧
       (getOrSet ((getOrSet st k (Except.ok (JSVal.val v1) : Except E (JSVal V))
           ttl stdTTL now1).store) k (Except.ok (JSVal.val v2) : Except E (JSVal V))
           ttl stdTTL now2).result = Except.ok (JSVal.val v1)) := by
  constructor
  · intro st k f ttl stdTTL now v h
    exact getOrSet_hit st k f ttl stdTTL now v h
  · intro st k v1 v2 ttl stdTTL now1 now2 hmiss hwin
    rw [getOrSet_miss_ok st k (JSVal.val v1) ttl stdTTL now1 hmiss]
    have hhit : cacheGet (cacheSet st k (JSVal.val v1) (effectiveTTL ttl stdTTL) now1) k now2 =
        JSVal.val v1 := by
      rw [cacheGet_cacheSet_same]
      exact if_pos hwin
    rw [getOrSet_hit _ k _ ttl stdTTL now2 v1 hhit]
    exact ⟨rfl, rfl, rfl⟩

/-- C1 witness: a concrete two-call run on an initially empty store; the
second call (10 seconds later, within the 900-second default TTL) returns
the first supplier's value 1 with zero supplier invocations even though its
own supplier would return 2. -/
theorem getOrSet_cache_hit_suppresses_supplier_witness :
    cacheGet ([] : Store Nat) "restaurants:paris" 0 = JSVal.undef ∧
    (0 : Nat) + 10 < 0 + effectiveTTL none 900 ∧
    (getOrSet ((getOrSet ([] : Store Nat) "restaurants:paris"
        (Except.ok (JSVal.val 1) : Except Unit (JSVal Nat)) none 900 0).store)
        "restaurants:paris" (Except.ok (JSVal.val 2) : Except Unit (JSVal Nat)) none 900 10).supplierCalls = 0 ∧
    (getOrSet ((getOrSet ([] : Store Nat) "restaurants:paris"
        (Except.ok (JSVal.val 1) : Except Unit (JSVal Nat)) none 900 0).store)
        "restaurants:paris" (Except.ok (JSVal.val 2) : Except Unit (JSVal Nat)) none 900 10).result =
      Except.ok (JSVal.val 1) := by
  refine ⟨rfl, by decide, ?_, ?_⟩
  · exact (getOrSet_cache_hit_suppresses_supplier.2 [] "restaurants:paris" 1 2 none 900 0 10
      rfl (by decide)).2.1
  · exact (getOrSet_cache_hit_suppresses_supplier.2 [] "restaurants:paris" 1 2 none 900 0 10
      rfl (by decide)).2.2

/-- C2: if the supplier throws on a miss, the error propagates to the caller
and the store is unchanged (nothing is cached under the key); consequently,
when a first call's supplier throws and a second call's supplier succeeds for
the same key, the supplier runs on both calls and the second call's value
becomes the newly cached entry. -/
theorem getOrSet_error_not_cached {E V : Type} :
    (∀ (st : Store V) (k : String) (e : E) (ttl : Option Nat) (stdTTL now : Nat),
       cacheGet st k now = JSVal.undef →
       getOrSet st k (Except.error e : Except E (JSVal V)) ttl stdTTL now =
         ⟨Except.error e, st, 1⟩) ∧
    (∀ (st : Store V) (k : String) (e : E) (v : V) (ttl : Option Nat) (stdTTL now1 now2 : Nat),
       cacheGet st k now1 = JSVal.undef →
       cacheGet st k now2 = JSVal.undef →
       0 < effectiveTTL ttl stdTTL →
       (getOrSet st k (Except.error e : Except E (JSVal V)) ttl stdTTL now1).supplierCalls = 1 ∧
       (getOrSet ((getOrSet st k (Except.error e : Except E (JSVal V)) ttl stdTTL now1).store)
           k (Except.ok (JSVal.val v) : Except E (JSVal V)) ttl stdTTL now2).supplierCalls = 1 ∧
       (getOrSet ((getOrSet st k (Except.error e : Except E (JSVal V)) ttl stdTTL now1).store)
           k (Except.ok (JSVal.val v) : Except E (JSVal V)) ttl stdTTL now2).result =
         Except.ok (JSVal.val v) ∧
       cacheGet ((getOrSet ((getOrSet st k (Except.error e : Except E (JSVal V))
           ttl stdTTL now1).store) k (Except.ok (JSVal.val v) : Except E (JSVal V))
           ttl stdTTL now2).store) k now2 = JSVal.val v) := by
  constructor
  · intro st k e ttl stdTTL now h
    exact getOrSet_miss_error st k e ttl stdTTL now h
  · intro st k e v ttl stdTTL now1 now2 h1 h2 httl
    rw [getOrSet_miss_error st k e ttl stdTTL now1 h1]
    rw [getOrSet_miss_ok st k (JSVal.val v) ttl stdTTL now2 h2]
    refine ⟨rfl, rfl, rfl, ?_⟩
    rw [cacheGet_cacheSet_same]
    exact if_pos (Nat.lt_add_of_pos_right httl)

/-- C2 witness: a concrete run on the empty store; the first call's supplier
throws, the second call's supplier succeeds, both calls invoke their
supplier, and the second value ends up cached. -/
theorem getOrSet_error_not_cached_witness :
    getOrSet ([] : Store Nat) "k" (Except.error 0 : Except Nat (JSVal Nat)) none 900 0 =
      ⟨Except.error 0, [], 1⟩ ∧
    (getOrSet ((getOrSet ([] : Store Nat) "k" (Except.error 0 : Except Nat (JSVal Nat))
        none 900 0).store) "k" (Except.ok (JSVal.val 5) : Except Nat (JSVal Nat))
        none 900 3).supplierCalls = 1 ∧
    cacheGet ((getOrSet ((getOrSet ([] : Store Nat) "k"
        (Except.error 0 : Except Nat (JSVal Nat)) none 900 0).store) "k"
        (Except.ok (JSVal.val 5) : Except Nat (JSVal Nat)) none 900 3).store) "k" 3 =
      JSVal.val 5 := by
  refine ⟨getOrSet_error_not_cached.1 [] "k" 0 none 900 0 rfl, ?_, ?_⟩
  · exact (getOrSet_error_not_cached.2 [] "k" 0 5 none 900 0 3 rfl rfl (by decide)).2.1
  · exact (getOrSet_error_not_cached.2 [] "k" 0 5 none 900 0 3 rfl rfl (by decide)).2.2.2

/-- C10: a supplier that resolves to `undefined` has its value written to the
store by `getOrSet`, but the entry is never observed as a cache hit: at every
later instant the lookup reads back as `undefined` (the hit test is
`cached !== undefined`), so any subsequent `getOrSet` for the key invokes its
supplier again. -/
theorem getOrSet_undefined_value_never_hits {E V : Type} :
    ∀ (st : Store V) (k : String) (ttl : Option Nat) (stdTTL now1 : Nat),
      cacheGet st k now1 = JSVal.undef →
      cacheLookup ((getOrSet st k (Except.ok JSVal.undef : Except E (JSVal V))
          ttl stdTTL now1).store) k =
        some ⟨JSVal.undef, now1 + effectiveTTL ttl stdTTL⟩ ∧
      ∀ (now2 : Nat) (f : Except E (JSVal V)),
        cacheGet ((getOrSet st k (Except.ok JSVal.undef : Except E (JSVal V))
            ttl stdTTL now1).store) k now2 = JSVal.undef ∧
        (getOrSet ((getOrSet st k (Except.ok JSVal.undef : Except E (JSVal V))
            ttl stdTTL now1).store) k f ttl stdTTL now2).supplierCalls = 1 := by
  intro st k ttl stdTTL now1 hmiss
  rw [getOrSet_miss_ok st k JSVal.undef ttl stdTTL now1 hmiss]
  have hlookup : cacheLookup (cacheSet st k JSVal.undef (effectiveTTL ttl stdTTL) now1) k =
      some ⟨JSVal.undef, now1 + effectiveTTL ttl stdTTL⟩ := by
    simp [cacheSet, cacheLookup]
  refine ⟨hlookup, ?_⟩
  intro now2 f
  have hget : cacheGet (cacheSet st k JSVal.undef (effectiveTTL ttl stdTTL) now1) k now2 =
      JSVal.undef := by
    rw [cacheGet_cacheSet_same]
    exact ite_self JSVal.undef
  refine ⟨hget, ?_⟩
  cases f with
  | error e => rw [getOrSet_miss_error _ k e ttl stdTTL now2 hget]
  | ok data => rw [getOrSet_miss_ok _ k data ttl stdTTL now2 hget]

/-- C10 witness: on the empty store a supplier resolving to `undefined` is
stored, yet a second call 1 second later still misses and re-invokes its
supplier. -/
theorem getOrSet_undefined_value_never_hits_witness :
    cacheLookup ((getOrSet ([] : Store Nat) "k"
        (Except.ok JSVal.undef : Except Unit (JSVal Nat)) none 900 0).store) "k" =
      some ⟨JSVal.undef, 900⟩ ∧
    (getOrSet ((getOrSet ([] : Store Nat) "k"
        (Except.ok JSVal.undef : Except Unit (JSVal Nat)) none 900 0).store) "k"
        (Except.ok JSVal.undef : Except Unit (JSVal Nat)) none 900 1).supplierCalls = 1 := by
  refine ⟨(getOrSet_undefined_value_never_hits [] "k" none 900 0 rfl).1, ?_⟩
  exact ((getOrSet_undefined_value_never_hits [] "k" none 900 0 rfl).2 1
    (Except.ok JSVal.undef)).2

/-- C5: every cache-key derivation function is deterministic (the embedding
is a pure function, so deriving twice on the same tuple yields the same
string), and the attraction key is invariant under permutation of the
interests list, because the list is sorted before joining. -/
theorem cacheKey_deterministic_and_interest_order_invariant :
    (∀ (d : String) (o : Option RestaurantSearchOptions),
       generateRestaurantCacheKey d o = generateRestaurantCacheKey d o) ∧
    (∀ (d : String) (o : Option AttractionSearchOptions),
       generateAttractionCacheKey d o = generateAttractionCacheKey d o) ∧
    (∀ (d : String) (o : Option HotelSearchOptions),
       generateHotelCacheKey d o = generateHotelCacheKey d o) ∧
    (∀ (o d dep : String) (r : Option String) (opts : Option FlightSearchOptions),
       generateFlightCacheKey o d dep r opts = generateFlightCacheKey o d dep r opts) ∧
    (∀ (destination : String) (xs ys : List String) (lim : Option Nat),
       List.Perm xs ys →
       generateAttractionCacheKey destination (some ⟨some xs, lim⟩) =
       generateAttractionCacheKey destination (some ⟨some ys, lim⟩)) := by
  refine ⟨fun _ _ => rfl, fun _ _ => rfl, fun _ _ => rfl, fun _ _ _ _ _ => rfl, ?_⟩
  intro destination xs ys lim hperm
  simp only [generateAttractionCacheKey]
  rw [hperm.length_eq, insertionSort_eq_of_perm hperm]

/-- C5 witness: `["food", "art"]` and `["art", "food"]` derive the same
attraction key. -/
theorem cacheKey_deterministic_and_interest_order_invariant_witness :
    generateAttractionCacheKey "Rome" (some ⟨some ["food", "art"], some 3⟩) =
    generateAttractionCacheKey "Rome" (some ⟨some ["art", "food"], some 3⟩) :=
  cacheKey_deterministic_and_interest_order_invariant.2.2.2.2 "Rome"
    ["food", "art"] ["art", "food"] (some 3) (by decide)

/-- C3 counterexample: the two restaurant filter sets `{cuisine: "limit:5"}`
and `{limit: 5}` differ (in both the cuisine and the limit value), yet both
derive the key `restaurants:paris:limit:5`. -/
theorem cacheKey_uniqueness_counterexample :
    (⟨some "limit:5", none, none⟩ : RestaurantSearchOptions) ≠ ⟨none, none, some 5⟩ ∧
    generateRestaurantCacheKey "paris" (some ⟨some "limit:5", none, none⟩) =
      generateRestaurantCacheKey "paris" (some ⟨none, none, some 5⟩) := by
  exact ⟨by decide, by decide⟩

/-- C3 amended: key uniqueness does not hold for arbitrary filter sets
(filter values containing the separator collide with tagged components, as
the counterexample shows); what holds is uniqueness for filter sets that
differ in one already-normalized filter value with everything else fixed —
here, two requests with the same destination whose only filter is a
non-empty, already lower-case cuisine derive different keys whenever the
cuisines differ. -/
theorem cacheKey_uniqueness_amended (d c1 c2 : String) (h1 : c1 ≠ "") (h2 : c2 ≠ "")
    (hl1 : jsToLower c1 = c1) (hl2 : jsToLower c2 = c2) (hne : c1 ≠ c2) :
    generateRestaurantCacheKey d (some ⟨some c1, none, none⟩) ≠
    generateRestaurantCacheKey d (some ⟨some c2, none, none⟩) := by
  intro heq
  apply hne
  simp only [generateRestaurantCacheKey, strPart, natPart, if_neg h1, if_neg h2,
    List.cons_append, List.nil_append, List.append_nil] at heq
  have h3 := joinParts_three_inj_last ":" "restaurants" (jsToLower d)
    (jsToLower c1) (jsToLower c2) heq
  rw [hl1, hl2] at h3
  exact h3

/-- C3 amended witness: `italian` and `mexican` cuisines on the same
destination give distinct keys. -/
theorem cacheKey_uniqueness_amended_witness :
    generateRestaurantCacheKey "paris" (some ⟨some "italian", none, none⟩) ≠
    generateRestaurantCacheKey "paris" (some ⟨some "mexican", none, none⟩) :=
  cacheKey_uniqueness_amended "paris" "italian" "mexican" (by decide) (by decide)
    (by decide) (by decide) (by decide)

/-- C4 counterexample: the destination is lower-cased but never trimmed, so
`"Paris"` and `" paris "` (same filters up to case and argument order)
derive different keys — `restaurants:paris:italian:limit:5` versus
`restaurants: paris :italian:limit:5`. -/
theorem restaurantKey_whitespace_counterexample :
    generateRestaurantCacheKey "Paris" (some ⟨some "italian", none, some 5⟩) ≠
    generateRestaurantCacheKey " paris " (some ⟨some "ITALIAN", none, some 5⟩) := by
  decide

/-- C4 amended: the restaurant key normalizes case only (not whitespace) and
is insensitive to filter argument order: destinations equal up to case and
cuisines equal up to case (and equally empty, the push guard) give identical
keys for any shared price level and limit. -/
theorem restaurantKey_case_insensitive (d1 d2 c1 c2 : String) (pl : Option String)
    (lim : Option Nat) (hd : jsToLower d1 = jsToLower d2)
    (hc : jsToLower c1 = jsToLower c2) (hce : (c1 = "") = (c2 = "")) :
    generateRestaurantCacheKey d1 (some ⟨some c1, pl, lim⟩) =
    generateRestaurantCacheKey d2 (some ⟨some c2, pl, lim⟩) := by
  simp only [generateRestaurantCacheKey, strPart, natPart, hd, hc]
  by_cases h : c1 = ""
  · have h2 : c2 = "" := hce ▸ h
    rw [if_pos h, if_pos h2]
  · have h2 : ¬c2 = "" := hce ▸ h
    rw [if_neg h, if_neg h2]

/-- C4 amended witness: `("Paris", {cuisine:"italian", limit:5})` and
`("PARIS", {limit:5, cuisine:"ITALIAN"})` give identical keys. -/
theorem restaurantKey_case_insensitive_witness :
    generateRestaurantCacheKey "Paris" (some ⟨some "italian", none, some 5⟩) =
    generateRestaurantCacheKey "PARIS" (some ⟨some "ITALIAN", none, some 5⟩) :=
  restaurantKey_case_insensitive "Paris" "PARIS" "italian" "ITALIAN" none (some 5)
    (by decide) (by decide) (by decide)

/-- C8: each adapter rejects a missing/empty/whitespace-only required
parameter (destination for restaurants, attractions, hotels; origin,
destination, departure date for flights) with a 400 validation error whose
run equals `validationFailure`: no cache key is derived, the cache is not
consulted, no network work happens, no supplier runs and the store is
untouched. -/
theorem adapters_validate_before_cache_work {V : Type} :
    (∀ (configured : Bool) (up : UpstreamOutcome V) (st : Store V) (now : Nat)
       (d : String) (o : RestaurantSearchOptions),
       jsTrim d = "" →
       searchRestaurants configured up st now d o =
         validationFailure "Destination is required" st) ∧
    (∀ (configured : Bool) (up : UpstreamOutcome V) (st : Store V) (now : Nat)
       (d : String) (o : AttractionSearchOptions),
       jsTrim d = "" →
       searchAttractions configured up st now d o =
         validationFailure "Destination is required" st) ∧
    (∀ (configured : Bool) (up : UpstreamOutcome V) (st : Store V) (now : Nat)
       (d : String) (o : HotelSearchOptions),
       jsTrim d = "" →
       searchHotels configured up st now d o =
         validationFailure "Destination is required" st) ∧
    (∀ (configured : Bool) (fb : String → Option String)
       (up : String → String → UpstreamOutcome V) (st : Store V) (now : Nat)
       (o d dep : String) (r : Option String) (opts : FlightSearchOptions),
       jsTrim o = "" →
       searchFlights configured fb up st now o d dep r opts =
         validationFailure "Origin is required" st) ∧
    (∀ (configured : Bool) (fb : String → Option String)
       (up : String → String → UpstreamOutcome V) (st : Store V) (now : Nat)
       (o d dep : String) (r : Option String) (opts : FlightSearchOptions),
       jsTrim o ≠ "" → jsTrim d = "" →
       searchFlights configured fb up st now o d dep r opts =
         validationFailure "Destination is required" st) ∧
    (∀ (configured : Bool) (fb : String → Option String)
       (up : String → String → UpstreamOutcome V) (st : Store V) (now : Nat)
       (o d dep : String) (r : Option String) (opts : FlightSearchOptions),
       jsTrim o ≠ "" → jsTrim d ≠ "" → jsTrim dep = "" →
       searchFlights configured fb up st now o d dep r opts =
         validationFailure "Departure date is required" st) := by
  refine ⟨?_, ?_, ?_, ?_, ?_, ?_⟩
  · intro configured up st now d o h
    rw [searchRestaurants, if_pos (Or.inr h)]
  · intro configured up st now d o h
    rw [searchAttractions, if_pos (Or.inr h)]
  · intro configured up st now d o h
    rw [searchHotels, if_pos (Or.inr h)]
  · intro configured fb up st now o d dep r opts h
    rw [searchFlights, if_pos (Or.inr h)]
  · intro configured fb up st now o d dep r opts ho hd
    have ho2 : ¬(o = "" ∨ jsTrim o = "") := by
      rintro (h | h)
      · exact ho (by rw [h]; rfl)
      · exact ho h
    rw [searchFlights, if_neg ho2, if_pos (Or.inr hd)]
  · intro configured fb up st now o d dep r opts ho hd hdep
    have ho2 : ¬(o = "" ∨ jsTrim o = "") := by
      rintro (h | h)
      · exact ho (by rw [h]; rfl)
      · exact ho h
    have hd2 : ¬(d = "" ∨ jsTrim d = "") := by
      rintro (h | h)
      · exact hd (by rw [h]; rfl)
      · exact hd h
    rw [searchFlights, if_neg ho2, if_neg hd2, if_pos (Or.inr hdep)]

/-- C8 witness: concrete whitespace-only parameters are rejected by all four
adapters without any cache or network effect. -/
theorem adapters_validate_before_cache_work_witness :
    searchRestaurants true (UpstreamOutcome.ok (0 : Nat)) [] 0 "  " ⟨none, none, none⟩ =
      validationFailure "Destination is required" [] ∧
    searchAttractions true (UpstreamOutcome.ok (0 : Nat)) [] 0 "  " ⟨none, none⟩ =
      validationFailure "Destination is required" [] ∧
    searchHotels true (UpstreamOutcome.ok (0 : Nat)) [] 0 "" ⟨none, none, none, none⟩ =
      validationFailure "Destination is required" [] ∧
    searchFlights true (fun _ => none) (fun _ _ => UpstreamOutcome.ok (0 : Nat)) [] 0
      " " "CDG" "2025-12-01" none ⟨none, none, none, none⟩ =
      validationFailure "Origin is required" [] ∧
    searchFlights true (fun _ => none) (fun _ _ => UpstreamOutcome.ok (0 : Nat)) [] 0
      "JFK" " " "2025-12-01" none ⟨none, none, none, none⟩ =
      validationFailure "Destination is required" [] ∧
    searchFlights true (fun _ => none) (fun _ _ => UpstreamOutcome.ok (0 : Nat)) [] 0
      "JFK" "CDG" "" none ⟨none, none, none, none⟩ =
      validationFailure "Departure date is required" [] := by
  refine ⟨?_, ?_, ?_, ?_, ?_, ?_⟩
  · exact adapters_validate_before_cache_work.1 true (UpstreamOutcome.ok 0) [] 0 "  "
      ⟨none, none, none⟩ (by decide)
  · exact adapters_validate_before_cache_work.2.1 true (UpstreamOutcome.ok 0) [] 0 "  "
      ⟨none, none⟩ (by decide)
  · exact adapters_validate_before_cache_work.2.2.1 true (UpstreamOutcome.ok 0) [] 0 ""
      ⟨none, none, none, none⟩ (by decide)
  · exact adapters_validate_before_cache_work.2.2.2.1 true (fun _ => none)
      (fun _ _ => UpstreamOutcome.ok 0) [] 0 " " "CDG" "2025-12-01" none
      ⟨none, none, none, none⟩ (by decide)
  · exact adapters_validate_before_cache_work.2.2.2.2.1 true (fun _ => none)
      (fun _ _ => UpstreamOutcome.ok 0) [] 0 "JFK" " " "2025-12-01" none
      ⟨none, none, none, none⟩ (by decide) (by decide)
  · exact adapters_validate_before_cache_work.2.2.2.2.2 true (fun _ => none)
      (fun _ _ => UpstreamOutcome.ok 0) [] 0 "JFK" "CDG" "" none
      ⟨none, none, none, none⟩ (by decide) (by decide) (by decide)

/-- C9 counterexample: for `"Springfield"` (no table hit, no partial match)
with a failing network fallback, the normalizer returns the trimmed input
`"Springfield"` unchanged — not the uppercased `"SPRINGFIELD"` the claim
asserts. -/
theorem normalize_passthrough_counterexample :
    normalizeToIATACode (fun _ => none) "Springfield" = "Springfield" ∧
    normalizeToIATACode (fun _ => none) "Springfield" ≠ "SPRINGFIELD" := by
  exact ⟨by decide, by decide⟩

/-- C9 amended: the normalizer is total — in the embedding every branch
returns a string, mirroring the source, whose network fallback failures are
caught and surface as `null` — and when the input is non-empty, is not a
3-letter code, is not a `/m/` opaque id, has no exact or partial table
match, and the fallback fails, it returns the trimmed input unchanged
(original case preserved; only the 3-letter-code branch uppercases). -/
theorem normalize_fallthrough_amended (fallback : String → Option String)
    (location : String) (h0 : location ≠ "")
    (h1 : isIataPattern (jsTrim location) = false)
    (h2 : jsStartsWith (jsTrim location) "/m/" = false)
    (h3 : tableLookup CITY_TO_IATA (jsTrim (jsToLower location)) = none)
    (h4 : partialMatch CITY_TO_IATA (jsTrim (jsToLower location)) = none)
    (h5 : fallback location = none) :
    normalizeToIATACode fallback location = jsTrim location := by
  simp [normalizeToIATACode, h0, h1, h2, h3, h4, h5]

/-- C9 amended witness: the `"Springfield"` run satisfies every hypothesis
and indeed returns `"Springfield"`. -/
theorem normalize_fallthrough_amended_witness :
    normalizeToIATACode (fun _ => none) "Springfield" = jsTrim "Springfield" :=
  normalize_fallthrough_amended (fun _ => none) "Springfield" (by decide) (by decide)
    (by decide) (by decide) (by decide) rfl

/-- C6: the flight cache key is a function of the raw origin/destination
strings as supplied by the caller — identical raw inputs give an identical
(or identically absent) derived key whatever the resolution fallback,
upstream behaviour, store or clock — and `normalizeToIATACode` runs only
inside the supplier closure: zero invocations on a cache hit, exactly the
supplier's two invocations on a miss. -/
theorem searchFlights_key_from_raw_strings {V : Type} :
    (∀ (configured : Bool) (fb1 fb2 : String → Option String)
       (up1 up2 : String → String → UpstreamOutcome V) (st1 st2 : Store V)
       (now1 now2 : Nat) (origin destination departureDate : String)
       (returnDate : Option String) (options : FlightSearchOptions),
       (searchFlights configured fb1 up1 st1 now1 origin destination departureDate
         returnDate options).cacheKey =
       (searchFlights configured fb2 up2 st2 now2 origin destination departureDate
         returnDate options).cacheKey) ∧
    (∀ (configured : Bool) (fb : String → Option String)
       (up : String → String → UpstreamOutcome V) (st : Store V) (now : Nat)
       (origin destination departureDate : String) (returnDate : Option String)
       (options : FlightSearchOptions) (v : V),
       cacheGet st (generateFlightCacheKey origin destination departureDate returnDate
         (some options)) now = JSVal.val v →
       jsTrim origin ≠ "" → jsTrim destination ≠ "" → jsTrim departureDate ≠ "" →
       (searchFlights configured fb up st now origin destination departureDate
         returnDate options).normalizeCalls = 0 ∧
       (searchFlights configured fb up st now origin destination departureDate
         returnDate options).supplierCalls = 0 ∧
       (searchFlights configured fb up st now origin destination departureDate
         returnDate options).result = Except.ok (JSVal.val v)) ∧
    (∀ (configured : Bool) (fb : String → Option String)
       (up : String → String → UpstreamOutcome V) (st : Store V) (now : Nat)
       (origin destination departureDate : String) (returnDate : Option String)
       (options : FlightSearchOptions),
       cacheGet st (generateFlightCacheKey origin destination departureDate returnDate
         (some options)) now = JSVal.undef →
       jsTrim origin ≠ "" → jsTrim destination ≠ "" → jsTrim departureDate ≠ "" →
       (searchFlights configured fb up st now origin destination departureDate
         returnDate options).normalizeCalls = 2 ∧
       (searchFlights configured fb up st now origin destination departureDate
         returnDate options).supplierCalls = 1) := by
  refine ⟨?_, ?_, ?_⟩
  · intro configured fb1 fb2 up1 up2 st1 st2 now1 now2 origin destination departureDate
      returnDate options
    by_cases h1 : origin = "" ∨ jsTrim origin = ""
    · simp [searchFlights, h1, validationFailure]
    · by_cases h2 : destination = "" ∨ jsTrim destination = ""
      · simp [searchFlights, h1, h2, validationFailure]
      · by_cases h3 : departureDate = "" ∨ jsTrim departureDate = ""
        · simp [searchFlights, h1, h2, h3, validationFailure]
        · simp [searchFlights, h1, h2, h3, runCached]
  · intro configured fb up st now origin destination departureDate returnDate options v
      hhit ho hd hdep
    have h1 : ¬(origin = "" ∨ jsTrim origin = "") := by
      rintro (h | h)
      · exact ho (by rw [h]; rfl)
      · exact ho h
    have h2 : ¬(destination = "" ∨ jsTrim destination = "") := by
      rintro (h | h)
      · exact hd (by rw [h]; rfl)
      · exact hd h
    have h3 : ¬(departureDate = "" ∨ jsTrim departureDate = "") := by
      rintro (h | h)
      · exact hdep (by rw [h]; rfl)
      · exact hdep h
    rw [searchFlights, if_neg h1, if_neg h2, if_neg h3]
    rw [runCached_hit st now _ _ _ _ v hhit]
    exact ⟨rfl, rfl, rfl⟩
  · intro configured fb up st now origin destination departureDate returnDate options
      hmiss ho hd hdep
    have h1 : ¬(origin = "" ∨ jsTrim origin = "") := by
      rintro (h | h)
      · exact ho (by rw [h]; rfl)
      · exact ho h
    have h2 : ¬(destination = "" ∨ jsTrim destination = "") := by
      rintro (h | h)
      · exact hd (by rw [h]; rfl)
      · exact hd h
    have h3 : ¬(departureDate = "" ∨ jsTrim departureDate = "") := by
      rintro (h | h)
      · exact hdep (by rw [h]; rfl)
      · exact hdep h
    rw [searchFlights, if_neg h1, if_neg h2, if_neg h3]
    cases hout : (flightSupplier configured fb up origin destination).outcome with
    | error e =>
      rw [runCached_miss_error st now _ _ _ _ e hmiss hout]
      exact ⟨rfl, rfl⟩
    | ok data =>
      rw [runCached_miss_ok st now _ _ _ _ data hmiss hout]
      exact ⟨rfl, rfl⟩

/-- C6 witness: the same raw `("New York", "Paris")` pair keeps its key under
two different fallback environments, and a concrete cache hit performs no
location resolution. -/
theorem searchFlights_key_from_raw_strings_witness :
    (searchFlights true (fun _ => none) (fun _ _ => UpstreamOutcome.ok (3 : Nat)) [] 0
       "New York" "Paris" "2025-12-01" none ⟨none, none, none, none⟩).cacheKey =
    (searchFlights true (fun _ => some "/m/02_286") (fun _ _ => UpstreamOutcome.ok (4 : Nat))
       [("flights:new york:paris:2025-12-01", ⟨JSVal.val 3, 100⟩)] 7
       "New York" "Paris" "2025-12-01" none ⟨none, none, none, none⟩).cacheKey ∧
    (searchFlights true (fun _ => some "/m/02_286") (fun _ _ => UpstreamOutcome.ok (4 : Nat))
       [("flights:new york:paris:2025-12-01", ⟨JSVal.val 3, 100⟩)] 7
       "New York" "Paris" "2025-12-01" none ⟨none, none, none, none⟩).normalizeCalls = 0 := by
  constructor
  · exact searchFlights_key_from_raw_strings.1 true (fun _ => none)
      (fun _ => some "/m/02_286") (fun _ _ => UpstreamOutcome.ok 3)
      (fun _ _ => UpstreamOutcome.ok 4) []
      [("flights:new york:paris:2025-12-01", ⟨JSVal.val 3, 100⟩)] 0 7
      "New York" "Paris" "2025-12-01" none ⟨none, none, none, none⟩
  · exact (searchFlights_key_from_raw_strings.2.1 true (fun _ => some "/m/02_286")
      (fun _ _ => UpstreamOutcome.ok 4)
      [("flights:new york:paris:2025-12-01", ⟨JSVal.val 3, 100⟩)] 7
      "New York" "Paris" "2025-12-01" none ⟨none, none, none, none⟩ 3
      (by decide) (by decide) (by decide) (by decide)).1

/-- C7 counterexample: with the provider credential absent but a live cached
entry present, `searchRestaurants` consults the cache and returns the cached
value — contradicting the claim that no cache key is consulted and no cached
value is returned when the credential is missing. -/
theorem unconfigured_failfast_counterexample :
    (searchRestaurants false (UpstreamOutcome.ok (7 : Nat))
        [("restaurants:paris", ⟨JSVal.val 9, 100⟩)] 0 "paris" ⟨none, none, none⟩).result =
      Except.ok (JSVal.val 9) ∧
    (searchRestaurants false (UpstreamOutcome.ok (7 : Nat))
        [("restaurants:paris", ⟨JSVal.val 9, 100⟩)] 0 "paris"
        ⟨none, none, none⟩).cacheConsulted = true := by
  exact ⟨by decide, by decide⟩

/-- C7 amended: the credential check lives inside the supplier, after the
cache lookup: with the credential absent no adapter ever attempts the
upstream HTTP call, but the cache key is derived and the cache consulted
first; on a miss the restaurant adapter surfaces the wrapped 500
`Failed to search restaurants` error (the 503 configuration error is
remapped by the adapter's catch-all) with the store untouched, while a live
cached entry is still returned despite the missing credential. -/
theorem unconfigured_no_network_amended {V : Type} :
    (∀ (up : UpstreamOutcome V) (st : Store V) (now : Nat) (d : String)
       (o : RestaurantSearchOptions),
       (searchRestaurants false up st now d o).networkAttempted = false) ∧
    (∀ (up : UpstreamOutcome V) (st : Store V) (now : Nat) (d : String)
       (o : AttractionSearchOptions),
       (searchAttractions false up st now d o).networkAttempted = false) ∧
    (∀ (up : UpstreamOutcome V) (st : Store V) (now : Nat) (d : String)
       (o : HotelSearchOptions),
       (searchHotels false up st now d o).networkAttempted = false) ∧
    (∀ (fb : String → Option String) (up : String → String → UpstreamOutcome V)
       (st : Store V) (now : Nat) (o d dep : String) (r : Option String)
       (opts : FlightSearchOptions),
       (searchFlights false fb up st now o d dep r opts).networkAttempted = false) ∧
    (∀ (up : UpstreamOutcome V) (st : Store V) (now : Nat) (d : String)
       (o : RestaurantSearchOptions),
       cacheGet st (generateRestaurantCacheKey d (some o)) now = JSVal.undef →
       ¬(d = "" ∨ jsTrim d = "") →
       (searchRestaurants false up st now d o).result =
         Except.error ⟨"Failed to search restaurants", HTTP_STATUS_INTERNAL_SERVER_ERROR⟩ ∧
       (searchRestaurants false up st now d o).store = st ∧
       (searchRestaurants false up st now d o).cacheConsulted = true) ∧
    (∀ (up : UpstreamOutcome V) (st : Store V) (now : Nat) (d : String)
       (o : RestaurantSearchOptions) (v : V),
       cacheGet st (generateRestaurantCacheKey d (some o)) now = JSVal.val v →
       ¬(d = "" ∨ jsTrim d = "") →
       (searchRestaurants false up st now d o).result = Except.ok (JSVal.val v) ∧
       (searchRestaurants false up st now d o).cacheConsulted = true) := by
  refine ⟨?_, ?_, ?_, ?_, ?_, ?_⟩
  · intro up st now d o
    by_cases h : d = "" ∨ jsTrim d = ""
    · rw [searchRestaurants, if_pos h]
      rfl
    · rw [searchRestaurants, if_neg h]
      cases hc : cacheGet st (generateRestaurantCacheKey d (some o)) now with
      | val v => rw [runCached_hit _ _ _ _ _ _ v hc]
      | undef =>
        rw [runCached_miss_error _ _ _ _ _ _
          (SupplierErr.app serpNotConfiguredError) hc rfl]
        rfl
  · intro up st now d o
    by_cases h : d = "" ∨ jsTrim d = ""
    · rw [searchAttractions, if_pos h]
      rfl
    · rw [searchAttractions, if_neg h]
      cases hc : cacheGet st (generateAttractionCacheKey d (some o)) now with
      | val v => rw [runCached_hit _ _ _ _ _ _ v hc]
      | undef =>
        rw [runCached_miss_error _ _ _ _ _ _
          (SupplierErr.app serpNotConfiguredError) hc rfl]
        rfl
  · intro up st now d o
    by_cases h : d = "" ∨ jsTrim d = ""
    · rw [searchHotels, if_pos h]
      rfl
    · rw [searchHotels, if_neg h]
      cases hc : cacheGet st (generateHotelCacheKey d (some o)) now with
      | val v => rw [runCached_hit _ _ _ _ _ _ v hc]
      | undef =>
        rw [runCached_miss_error _ _ _ _ _ _
          (SupplierErr.app serpNotConfiguredError) hc rfl]
        rfl
  · intro fb up st now o d dep r opts
    by_cases h1 : o = "" ∨ jsTrim o = ""
    · rw [searchFlights, if_pos h1]
      rfl
    · by_cases h2 : d = "" ∨ jsTrim d = ""
      · rw [searchFlights, if_neg h1, if_pos h2]
        rfl
      · by_cases h3 : dep = "" ∨ jsTrim dep = ""
        · rw [searchFlights, if_neg h1, if_neg h2, if_pos h3]
          rfl
        · rw [searchFlights, if_neg h1, if_neg h2, if_neg h3]
          cases hc : cacheGet st (generateFlightCacheKey o d dep r (some opts)) now with
          | val v => rw [runCached_hit _ _ _ _ _ _ v hc]
          | undef =>
            rw [runCached_miss_error _ _ _ _ _ _
              (SupplierErr.app serpNotConfiguredError) hc rfl]
            rfl
  · intro up st now d o hmiss h
    rw [searchRestaurants, if_neg h,
      runCached_miss_error _ _ _ _ _ _ (SupplierErr.app serpNotConfiguredError) hmiss rfl]
    exact ⟨rfl, rfl, rfl⟩
  · intro up st now d o v hhit h
    rw [searchRestaurants, if_neg h, runCached_hit _ _ _ _ _ _ v hhit]
    exact ⟨rfl, rfl⟩

/-- C7 amended witness: a concrete unconfigured miss surfaces the wrapped
500 error without any network attempt, and a concrete unconfigured hit
returns the cached value. -/
theorem unconfigured_no_network_amended_witness :
    (searchRestaurants false (UpstreamOutcome.ok (7 : Nat)) [] 0 "paris"
       ⟨none, none, none⟩).networkAttempted = false ∧
    (searchRestaurants false (UpstreamOutcome.ok (7 : Nat)) [] 0 "paris"
       ⟨none, none, none⟩).result =
      Except.error ⟨"Failed to search restaurants", HTTP_STATUS_INTERNAL_SERVER_ERROR⟩ ∧
    (searchRestaurants false (UpstreamOutcome.ok (7 : Nat))
       [("restaurants:paris", ⟨JSVal.val 9, 100⟩)] 0 "paris" ⟨none, none, none⟩).result =
      Except.ok (JSVal.val 9) := by
  refine ⟨?_, ?_, ?_⟩
  · exact unconfigured_no_network_amended.1 (UpstreamOutcome.ok 7) [] 0 "paris"
      ⟨none, none, none⟩
  · exact (unconfigured_no_network_amended.2.2.2.2.1 (UpstreamOutcome.ok 7) [] 0 "paris"
      ⟨none, none, none⟩ rfl (by decide)).1
  · exact (unconfigured_no_network_amended.2.2.2.2.2 (UpstreamOutcome.ok 7)
      [("restaurants:paris", ⟨JSVal.val 9, 100⟩)] 0 "paris" ⟨none, none, none⟩ 9
      (by decide) (by decide)).1
